import Mathlib

/-!
# Verification of the scribr transcript-extraction pipeline

Shallow embedding of the transcript pipeline of `backend/app`:
the word-counting utility, the caption-track selector
(`services/transcript.py`), the local Whisper model registry
(`services/whisper_local.py`), the remote providers
(`services/siliconflow_transcribe.py`, `services/replicate_transcribe.py`),
the TTL cache (`utils/cache.py`) and the transcript/batch/download
endpoints of `routers/videos.py`.

Text is modelled as Lean `String` (a list of unicode scalar values, like
Python `str`).  Blocking I/O (yt-dlp, HTTP, the filesystem, model
inference) is modelled by explicit environment records carrying the values
those calls would return; each Python function then becomes a pure Lean
function of its environment.
-/

namespace Scribr

/-- Python `str.split()` / `str.strip()` whitespace (the six ASCII
whitespace characters recognised by CPython's `str.split` with no
argument). -/
def isPySpace (c : Char) : Bool :=
  c = ' ' || c = '\t' || c = '\n' || c = '\x0d' || c = '\x0b' || c = '\x0c'

/-- Python `str.strip()` on a character list: drop leading and trailing
whitespace. -/
def pyStripL (l : List Char) : List Char :=
  (l.dropWhile isPySpace).reverse.dropWhile isPySpace |>.reverse

/-- Python `str.strip()`. -/
def pyStrip (s : String) : String :=
  ⟨pyStripL s.data⟩

/-- Number of maximal runs of non-whitespace characters: `inWord` records
whether the previous character belonged to a word. -/
def splitCountAux : List Char → Bool → Nat
  | [], _ => 0
  | c :: rest, inWord =>
    if isPySpace c then splitCountAux rest false
    else (if inWord then 0 else 1) + splitCountAux rest true

/-- `len(s.split())` in Python: the number of whitespace-delimited
tokens of `s`. -/
def splitCount (s : String) : Nat :=
  splitCountAux s.data false

/-- The CJK ranges matched by the regex
`[一-鿿㐀-䶿぀-ゟ゠-ヿ]` used by
`_count_words` in `whisper_local.py` / `siliconflow_transcribe.py` /
`replicate_transcribe.py`. -/
def isCJK (c : Char) : Bool :=
  (0x4e00 ≤ c.toNat && c.toNat ≤ 0x9fff) ||
  (0x3400 ≤ c.toNat && c.toNat ≤ 0x4dbf) ||
  (0x3040 ≤ c.toNat && c.toNat ≤ 0x309f) ||
  (0x30a0 ≤ c.toNat && c.toNat ≤ 0x30ff)

/-- `_count_words` (identical in `whisper_local.py`,
`siliconflow_transcribe.py` and `replicate_transcribe.py`): the number of
CJK characters plus the number of whitespace tokens after replacing every
CJK character by a space. -/
def countWords (s : String) : Nat :=
  (s.data.filter isCJK).length +
    splitCount ⟨s.data.map (fun c => if isCJK c then ' ' else c)⟩

/-- Python `s[:n]` on a string. -/
def pyTake (n : Nat) (s : String) : String :=
  ⟨s.data.take n⟩

/-- Lower-casing as done by Python `str.lower()` restricted to the ASCII
letters that occur in provider names. -/
def pyLower (s : String) : String :=
  ⟨s.data.map Char.toLower⟩

/-! ## Caption extraction (`services/transcript.py`) -/

/-- First value bound to a key in a Python-dict-like association list. -/
def assocFind (k : String) (l : List (String × α)) : Option α :=
  (l.find? (fun e => e.1 = k)).map Prod.snd

/-- The fixed `lang_priority` list of `_extract_caption_sync`. -/
def langPriority : List String :=
  ["en", "en-US", "en-GB",
   "it", "it-IT",
   "zh", "zh-Hans", "zh-Hant", "zh-TW", "zh-HK",
   "ja", "ko"]

/-- The inner loop of `_extract_caption_sync`: scan `langs` in order and
return the first language whose track list contains a format with
`ext == "json3"`.  A subtitle dictionary is modelled as an association
list from language code to the list of `ext` values of its formats. -/
def scanLangs (tracks : List (String × List String)) : List String → Option String
  | [] => none
  | lang :: rest =>
    match assocFind lang tracks with
    | some fmts => if fmts.contains "json3" then some lang else scanLangs tracks rest
    | none => scanLangs tracks rest

/-- The track-selection logic of `_extract_caption_sync` (lines 196–231):
manual subtitles are scanned over `lang_priority` first; only if that
yields nothing are automatic captions scanned over
`lang_priority ++ ["en-orig"]`.  Returns the chosen language together
with `true` for a manual track, `false` for an automatic one. -/
def selectCaptionTrack (subtitles automaticCaptions : List (String × List String)) :
    Option (String × Bool) :=
  match scanLangs subtitles langPriority with
  | some lang => some (lang, true)
  | none =>
    match scanLangs automaticCaptions (langPriority ++ ["en-orig"]) with
    | some lang => some (lang, false)
    | none => none

/-- `_format_timestamp`: seconds to `MM:SS` or `HH:MM:SS` with
two-digit zero padding. -/
def pad2 (n : Nat) : String :=
  if n < 10 then "0" ++ toString n else toString n

/-- `_format_timestamp` on whole seconds. -/
def formatTimestamp (seconds : Nat) : String :=
  let hours := seconds / 3600
  let minutes := seconds % 3600 / 60
  let secs := seconds % 60
  if hours > 0 then pad2 hours ++ ":" ++ pad2 minutes ++ ":" ++ pad2 secs
  else pad2 minutes ++ ":" ++ pad2 secs

/-- One entry of the json3 `events` array: whether the event carries a
`segs` key, its `tStartMs`, and the `utf8` text of each segment. -/
structure CaptionEvent where
  hasSegs : Bool
  tStartMs : Nat
  segs : List String
  deriving Repr, DecidableEq

/-- Everything `_extract_caption_sync` observes from the outside world:
whether `extract_info` succeeded, the two subtitle dictionaries, whether
the chosen format carries a `url`, the fetched json3 events, and whether
any of the calls raised (the whole body is wrapped in
`try/except Exception: return None`). -/
structure CaptionEnv where
  infoOk : Bool
  subtitles : List (String × List String)
  automaticCaptions : List (String × List String)
  urlPresent : Bool
  events : List CaptionEvent
  raises : Bool

/-- The per-event processing of `_extract_caption_sync`: keep segments
whose text is nonempty with a nonempty strip, join them, strip, and keep
the event when the result is nonempty, producing the timestamp and the
text. -/
def captionEventLine (e : CaptionEvent) : Option (String × String) :=
  if ¬e.hasSegs then none
  else
    let parts := e.segs.filter (fun t => t ≠ "" && pyStrip t ≠ "")
    if parts = [] then none
    else
      let text := pyStrip (String.join parts)
      if text = "" then none
      else some (formatTimestamp (e.tStartMs / 1000), text)

/-- Join a list of strings with a separator (Python `sep.join`). -/
def joinSep (sep : String) : List String → String
  | [] => ""
  | [s] => s
  | s :: rest => s ++ sep ++ joinSep sep rest

/-- Result object of the pipeline (`TranscriptResult` in
`transcript.py` / `AudioTranscriptResult` in the provider modules). -/
structure TranscriptResult where
  content : String
  language : String
  word_count : Nat
  method : String
  deriving Repr, DecidableEq

/-- `_extract_caption_sync`: select a track, fetch and parse the json3
events, and build the timestamped transcript.  `word_count` is
`len(full_text.split())` on the plain (timestamp-free) joined text;
every failure (including any raised exception) degrades to `none`. -/
def extractCaptionSync (env : CaptionEnv) : Option TranscriptResult :=
  if env.raises then none
  else if ¬env.infoOk then none
  else
    match selectCaptionTrack env.subtitles env.automaticCaptions with
    | none => none
    | some (language, _) =>
      if ¬env.urlPresent then none
      else
        let lines := env.events.filterMap captionEventLine
        if lines = [] then none
        else
          let content := joinSep "\n" (lines.map (fun p => "[" ++ p.1 ++ "] " ++ p.2))
          let fullText := joinSep " " (lines.map Prod.snd)
          some { content := content, language := language,
                 word_count := splitCount fullText, method := "caption" }

/-! ## Local Whisper model registry (`services/whisper_local.py`) -/

/-- `_get_backend()`: `"mlx"` on Apple Silicon with `mlx_whisper`
importable, `"faster-whisper"` everywhere else. -/
def getBackend (isAppleSilicon mlxAvailable : Bool) : String :=
  if isAppleSilicon && mlxAvailable then "mlx" else "faster-whisper"

/-- `MLX_MODELS`: name, `size_mb`, `repo_id`. -/
def MLX_MODELS : List (String × Nat × String) :=
  [("turbo", 800, "mlx-community/whisper-turbo"),
   ("large-v3-turbo", 1600, "mlx-community/whisper-large-v3-turbo"),
   ("medium", 1500, "mlx-community/whisper-medium-mlx")]

/-- `FASTER_WHISPER_MODELS`. -/
def FASTER_WHISPER_MODELS : List (String × Nat × String) :=
  [("tiny", 75, "Systran/faster-whisper-tiny"),
   ("base", 150, "Systran/faster-whisper-base"),
   ("small", 500, "Systran/faster-whisper-small"),
   ("medium", 1500, "Systran/faster-whisper-medium"),
   ("large-v3", 3000, "Systran/faster-whisper-large-v3")]

/-- `get_whisper_models()`: the catalog of the active backend. -/
def getWhisperModels (backendMlx : Bool) : List (String × Nat × String) :=
  if backendMlx then MLX_MODELS else FASTER_WHISPER_MODELS

/-- What `is_model_installed` observes of one snapshot directory under
`snapshots/`: whether the entry is a directory, whether it holds a
`.safetensors` file, and whether `model.bin` exists in it. -/
structure Snapshot where
  isDir : Bool
  hasSafetensors : Bool
  hasModelBin : Bool
  deriving Repr, DecidableEq

/-- The filesystem as probed by the registry: for a model-cache directory
name, `none` when the directory (or its `snapshots/` subdirectory) does
not exist, otherwise the list of entries of `snapshots/`. -/
def ModelFS := String → Option (List Snapshot)

/-- `_get_model_cache_path`: `models--<repo_id with / replaced by -->`
under the HuggingFace hub cache (the constant cache root is dropped,
keeping the per-model directory name; `repo_id.replace("/", "--")` is
spelt out characterwise since the pattern is a single character). -/
def modelCacheDirName (repoId : String) : String :=
  "models--" ++
    ⟨(repoId.data.map (fun c => if c = '/' then ['-', '-'] else [c])).flatten⟩

/-- `is_model_installed`: the model must be in the active catalog and
some snapshot directory must hold either a `.safetensors` file or a
`model.bin`. -/
def isModelInstalled (backendMlx : Bool) (fs : ModelFS) (modelName : String) : Bool :=
  match assocFind modelName (getWhisperModels backendMlx) with
  | none => false
  | some cfg =>
    match fs (modelCacheDirName cfg.2) with
    | none => false
    | some snapshots =>
      snapshots.any (fun s => s.isDir && (s.hasSafetensors || s.hasModelBin))

/-- `has_any_model_installed`. -/
def hasAnyModelInstalled (backendMlx : Bool) (fs : ModelFS) : Bool :=
  (getWhisperModels backendMlx).any (fun m => isModelInstalled backendMlx fs m.1)

/-- Environment of one `download_model` call: whether the actual download
(`snapshot_download` / `WhisperModel` load) succeeds, the filesystem
after a successful download, and the exception text of a failed one. -/
structure DownloadEnv where
  succeeds : Bool
  fsAfter : ModelFS
  errorMsg : String

/-- `download_model`: unknown model → `TranscriptionError`; already
installed → report 100% and return without downloading; otherwise report
0%, download, and report 100% (or wrap the failure).  Returns the
outcome, the arguments passed to `progress_callback` in order, and the
resulting filesystem. -/
def downloadModel (backendMlx : Bool) (fs : ModelFS) (env : DownloadEnv)
    (modelName : String) : Except String Unit × List Nat × ModelFS :=
  if (assocFind modelName (getWhisperModels backendMlx)).isNone then
    (Except.error ("Unknown model: " ++ modelName), [], fs)
  else if isModelInstalled backendMlx fs modelName then
    (Except.ok (), [100], fs)
  else if env.succeeds then
    (Except.ok (), [0, 100], env.fsAfter)
  else
    (Except.error ("Failed to download model: " ++ env.errorMsg), [0], fs)

/-- Environment of one local `transcribe_audio` call: the configured
model name (`get_whisper_model()`), the backend facts, the filesystem,
whether the audio download produced a file, and the outcome of
`_transcribe_sync`'s backend call (`text` and `language`, or the
`TranscriptionError` message it was converted to). -/
structure WhisperEnv where
  modelName : String
  isAppleSilicon : Bool
  mlxAvailable : Bool
  fs : ModelFS
  audioOk : Bool
  inference : Except String (String × String)

/-- Whether the active backend is MLX. -/
def WhisperEnv.backendMlx (w : WhisperEnv) : Bool :=
  w.isAppleSilicon && w.mlxAvailable

/-- `whisper_local.transcribe_audio`: fail if the configured model is not
installed, fail if the audio download fails, run the backend, fail on an
empty result, otherwise return the text with the script-aware word count
and `method = "whisper-<backend>"`. -/
def whisperTranscribeAudio (w : WhisperEnv) : Except String TranscriptResult :=
  if ¬isModelInstalled w.backendMlx w.fs w.modelName then
    Except.error ("Whisper model '" ++ w.modelName ++
      "' is not installed. Download it first in settings.")
  else if ¬w.audioOk then
    Except.error "Failed to download audio from YouTube"
  else
    match w.inference with
    | Except.error e => Except.error e
    | Except.ok (text, language) =>
      if text = "" then Except.error "No transcription result returned"
      else
        Except.ok { content := text, language := language,
                    word_count := countWords text,
                    method := "whisper-" ++ getBackend w.isAppleSilicon w.mlxAvailable }

/-! ## Remote providers (`services/siliconflow_transcribe.py`,
`services/replicate_transcribe.py`) -/

/-- `needle.isPrefixOf hay` on character lists. -/
def isPrefixL : List Char → List Char → Bool
  | [], _ => true
  | _ :: _, [] => false
  | a :: as, b :: bs => a = b && isPrefixL as bs

/-- Substring test on character lists. -/
def containsSubL (needle : List Char) : List Char → Bool
  | [] => isPrefixL needle []
  | c :: rest => isPrefixL needle (c :: rest) || containsSubL needle rest

/-- Python `needle in hay` on strings. -/
def strContains (hay needle : String) : Bool :=
  containsSubL needle.data hay.data

/-- The HTTP response `_transcribe_with_siliconflow` observes: status
code, parsed `text` and `language` on success, raw body text used for
error classification. -/
structure SFResponse where
  status : Nat
  text : String
  language : String
  errorText : String

/-- Environment of one SiliconFlow `transcribe_audio` call. -/
structure SiliconFlowEnv where
  audioOk : Bool
  apiKeyConfigured : Bool
  request : Except String SFResponse

/-- `_transcribe_with_siliconflow`: `None` when no API key is
configured; classify non-200 statuses into invalid-key, insufficient-
credit and generic (body truncated to 100 chars); any transport
exception becomes `SiliconFlow error: <text[:200]>`. -/
def transcribeWithSiliconflow (env : SiliconFlowEnv) :
    Except String (Option (String × String)) :=
  if ¬env.apiKeyConfigured then Except.ok none
  else
    match env.request with
    | Except.error e => Except.error ("SiliconFlow error: " ++ pyTake 200 e)
    | Except.ok r =>
      if r.status = 200 then Except.ok (some (r.text, r.language))
      else if r.status = 401 then Except.error "SiliconFlow: Invalid API key"
      else if r.status = 402 || strContains (pyLower r.errorText) "insufficient" then
        Except.error "SiliconFlow: Insufficient credit. Please top up your account."
      else
        Except.error ("SiliconFlow API error (" ++ toString r.status ++ "): " ++
          pyTake 100 r.errorText)

/-- `siliconflow_transcribe.transcribe_audio`: returns `None` (not an
error) when the audio download fails; raises on an absent or empty
transcription result; otherwise builds the outcome with
`method = "ai"` and the script-aware word count. -/
def siliconflowTranscribeAudio (env : SiliconFlowEnv) :
    Except String (Option TranscriptResult) :=
  if ¬env.audioOk then Except.ok none
  else
    match transcribeWithSiliconflow env with
    | Except.error e => Except.error e
    | Except.ok none => Except.error "No transcription result returned"
    | Except.ok (some (text, language)) =>
      if text = "" then Except.error "No transcription result returned"
      else
        Except.ok (some { content := text, language := language,
                          word_count := countWords text, method := "ai" })

/-- Environment of one Replicate `transcribe_audio` call: the
`client.run` outcome is an exception text, or `some (text, language)`
when the output dict has a `text` key, or `none` when it does not. -/
structure ReplicateEnv where
  audioOk : Bool
  apiTokenConfigured : Bool
  response : Except String (Option (String × String))

/-- `_transcribe_with_replicate_sync`: missing token and malformed
output raise directly; other exceptions are classified into
insufficient-credit, invalid-token, and generic (text truncated to 200
chars). -/
def transcribeWithReplicateSync (env : ReplicateEnv) :
    Except String (String × String) :=
  if ¬env.apiTokenConfigured then Except.error "REPLICATE_API_TOKEN not configured"
  else
    match env.response with
    | Except.ok (some r) => Except.ok r
    | Except.ok none => Except.error "Unexpected response format from Replicate"
    | Except.error e =>
      if strContains e "Insufficient credit" then
        Except.error
          "Replicate: Insufficient credit. Please add funds at replicate.com/account/billing"
      else if strContains e "401" || strContains (pyLower e) "unauthorized" then
        Except.error "Replicate: Invalid API token"
      else Except.error ("Replicate API error: " ++ pyTake 200 e)

/-- `replicate_transcribe.transcribe_audio`: a failed audio download
raises (unlike SiliconFlow); an empty result raises; otherwise the
outcome carries `method = "ai"` and the script-aware word count. -/
def replicateTranscribeAudio (env : ReplicateEnv) : Except String TranscriptResult :=
  if ¬env.audioOk then
    Except.error
      "Failed to download audio from YouTube. The video may be restricted or unavailable."
  else
    match transcribeWithReplicateSync env with
    | Except.error e => Except.error e
    | Except.ok (text, language) =>
      if text = "" then Except.error "No transcription result returned"
      else
        Except.ok { content := text, language := language,
                    word_count := countWords text, method := "ai" }

/-! ## Orchestrator (`services/transcript.py`) -/

/-- Environment of one end-to-end extraction: the caption world, the
local Whisper world, both provider worlds, and the configured default
provider (`settings.transcription_provider`). -/
structure PipelineEnv where
  caption : CaptionEnv
  whisper : WhisperEnv
  siliconflow : SiliconFlowEnv
  replicate : ReplicateEnv
  configuredProvider : String

/-- Which fallback stages were invoked during a call: whether
`whisper_local.transcribe_audio` ran, and which remote provider (if any)
was called. -/
structure StageTrace where
  localInvoked : Bool
  remoteInvoked : Option String
  deriving Repr, DecidableEq

/-- `_get_local_whisper_transcription`: skip (without invoking the
transcriber) when no model is installed; a `TranscriptionError` from the
transcriber is swallowed and reported as `None`. -/
def localWhisperTranscription (env : PipelineEnv) : Option TranscriptResult × Bool :=
  if ¬hasAnyModelInstalled env.whisper.backendMlx env.whisper.fs then (none, false)
  else
    match whisperTranscribeAudio env.whisper with
    | Except.ok r => (some r, true)
    | Except.error _ => (none, true)

/-- The provider name `_get_ai_transcription` dispatches on: the caller's
(falsy values replaced by the configured default), lower-cased. -/
def resolvedProvider (env : PipelineEnv) (provider : Option String) : String :=
  pyLower (match provider with
    | none => env.configuredProvider
    | some s => if s = "" then env.configuredProvider else s)

/-- `_get_ai_transcription`: local Whisper first; then dispatch on the
provider name; an unknown name is a configuration error (a distinct
message when no local model exists either).  `ok none` models the
`None` a provider can return.  The second component records which stages
were invoked. -/
def getAITranscription (env : PipelineEnv) (provider : Option String) :
    Except String (Option TranscriptResult) × StageTrace :=
  match localWhisperTranscription env with
  | (some r, li) => (Except.ok (some r), ⟨li, none⟩)
  | (none, li) =>
    let p := resolvedProvider env provider
    if p = "replicate" then
      match replicateTranscribeAudio env.replicate with
      | Except.ok r => (Except.ok (some r), ⟨li, some "replicate"⟩)
      | Except.error e => (Except.error e, ⟨li, some "replicate"⟩)
    else if p = "siliconflow" then
      (siliconflowTranscribeAudio env.siliconflow, ⟨li, some "siliconflow"⟩)
    else if ¬hasAnyModelInstalled env.whisper.backendMlx env.whisper.fs then
      (Except.error ("No transcription method available. " ++
        "Download a Whisper model in settings, " ++
        "or configure a cloud API (Replicate/SiliconFlow)."), ⟨li, none⟩)
    else
      (Except.error ("Unknown transcription provider: " ++ p), ⟨li, none⟩)

/-- How a call into the pipeline can fail: a `TranscriptionError` with
its message, or an unexpected Python exception (modelled with its
message), such as the `AttributeError` raised when an AI stage returns
`None` and `extract_transcript` dereferences it. -/
inductive PipeErr where
  | transcription (msg : String)
  | unexpected (msg : String)
  deriving Repr, DecidableEq

/-- `extract_transcript`: captions first; on success return immediately;
otherwise run the AI chain only when `use_ai_fallback` is set, else
return `None`.  A `None` slipping out of the AI chain crashes on
attribute access (an unexpected error). -/
def extractTranscript (env : PipelineEnv) (useAIFallback : Bool)
    (provider : Option String) : Except PipeErr (Option TranscriptResult) × StageTrace :=
  match extractCaptionSync env.caption with
  | some r => (Except.ok (some r), ⟨false, none⟩)
  | none =>
    if useAIFallback then
      match getAITranscription env provider with
      | (Except.error m, tr) => (Except.error (PipeErr.transcription m), tr)
      | (Except.ok none, tr) =>
        (Except.error (PipeErr.unexpected "'NoneType' object has no attribute 'content'"), tr)
      | (Except.ok (some a), tr) =>
        (Except.ok (some { content := a.content, language := a.language,
                           word_count := a.word_count, method := a.method }), tr)
    else (Except.ok none, ⟨false, none⟩)

/-- `extract_transcript_caption_only`: captions only, `None` when there
are none, never an error and never a later stage. -/
def extractTranscriptCaptionOnly (env : PipelineEnv) :
    Except PipeErr (Option TranscriptResult) × StageTrace :=
  (Except.ok (extractCaptionSync env.caption), ⟨false, none⟩)

/-! ## TTL cache (`utils/cache.py`)

The cache stores JSON-serialisable values under string keys with an
expiry timestamp; time is a `Nat` (seconds).  The backend decision is
sticky per process (`_redis_available`), so a cache state is either a
Redis store or the in-memory fallback store.  The value type is a
parameter (the code stores arbitrary JSON). -/

/-- One stored entry: full key, value, absolute expiry instant. -/
abbrev Store (α : Type) := List (String × α × Nat)

/-- Dict-style insert: replace any previous binding of the key. -/
def storeSet (k : String) (v : α) (exp : Nat) (st : Store α) : Store α :=
  (k, v, exp) :: st.filter (fun e => e.1 ≠ k)

/-- Lookup of a full key. -/
def storeFind (k : String) (st : Store α) : Option (α × Nat) :=
  (st.find? (fun e => e.1 = k)).map (fun e => (e.2.1, e.2.2))

/-- `_cleanup_expired_memory`: drop entries whose expiry is strictly in
the past (`_expires_at < now`). -/
def memCleanup (now : Nat) (st : Store α) : Store α :=
  st.filter (fun e => ¬e.2.2 < now)

/-- Modelled from the external Redis contract used through `setex`/`get`/
`delete`: a key set with `setex ttl` is readable until its expiry and
gone from `now ≥ expiry` on.  (Redis itself is an external collaborator;
only its documented TTL semantics are modelled.) -/
def redisGet (now : Nat) (k : String) (st : Store α) : Option α :=
  match storeFind k st with
  | some (v, exp) => if now < exp then some v else none
  | none => none

/-- A cache backend, fixed for the process lifetime: the durable Redis
store or the in-process fallback map. -/
inductive CacheState (α : Type) where
  | redis (st : Store α)
  | mem (st : Store α)

/-- `Cache.set`: `setex` on Redis; on the fallback, sweep expired
entries then store the value with `_expires_at = now + ttl`. -/
def cacheSet (now : Nat) (pre k : String) (v : α) (ttl : Nat) :
    CacheState α → CacheState α
  | CacheState.redis st => CacheState.redis (storeSet (pre ++ k) v (now + ttl) st)
  | CacheState.mem st => CacheState.mem (storeSet (pre ++ k) v (now + ttl) (memCleanup now st))

/-- `Cache.get`: Redis lookup, or lazy sweep then lookup on the
fallback.  Returns the value (if any) and the possibly swept state. -/
def cacheGet (now : Nat) (pre k : String) :
    CacheState α → Option α × CacheState α
  | CacheState.redis st => (redisGet now (pre ++ k) st, CacheState.redis st)
  | CacheState.mem st =>
    let st := memCleanup now st
    ((storeFind (pre ++ k) st).map Prod.fst, CacheState.mem st)

/-- `Cache.delete`. -/
def cacheDelete (pre k : String) : CacheState α → CacheState α
  | CacheState.redis st => CacheState.redis (st.filter (fun e => e.1 ≠ pre ++ k))
  | CacheState.mem st => CacheState.mem (st.filter (fun e => e.1 ≠ pre ++ k))

/-- `Cache.exists`: defined as `get(key) is not None`. -/
def cacheExists (now : Nat) (pre k : String) (c : CacheState α) : Bool :=
  (cacheGet now pre k c).1.isSome

/-! ## Transcript endpoints (`routers/videos.py`) -/

/-- The slice of a `Video` row the transcript endpoints read and write. -/
structure VideoState where
  id : Nat
  youtube_video_id : String
  title : String
  caption : Bool
  has_transcript : Bool
  transcript_status : String
  transcript_error : Option String
  deriving Repr, DecidableEq

/-- `str(e)` of a pipeline failure. -/
def PipeErr.msg : PipeErr → String
  | PipeErr.transcription m => m
  | PipeErr.unexpected m => m

/-- `extract_video_transcript` (single-video endpoint) after ownership
checks: an item that already has a transcript returns untouched; else
status goes to `extracting` (clearing the previous error), the pipeline
runs (`extract_transcript` with the caller's provider when `use_ai`,
`extract_transcript_caption_only` otherwise), and the terminal state is
written: `completed` with a stored transcript row, `failed` with
`"No transcript available"`, the raw `TranscriptionError` message
(stored verbatim), or `"Unexpected error: "` plus the first 200
characters of anything else.  Returns the final row and the stored
transcript, if any. -/
def extractVideoTranscript (env : PipelineEnv) (useAI : Bool)
    (provider : Option String) (v : VideoState) :
    VideoState × Option TranscriptResult :=
  if v.has_transcript then (v, none)
  else
    let v1 := { v with transcript_status := "extracting", transcript_error := none }
    let outcome := (if useAI then extractTranscript env true provider
                    else extractTranscriptCaptionOnly env).1
    match outcome with
    | Except.ok (some r) =>
      ({ v1 with has_transcript := true, transcript_status := "completed",
                 transcript_error := none }, some r)
    | Except.ok none =>
      ({ v1 with transcript_status := "failed",
                 transcript_error := some "No transcript available" }, none)
    | Except.error (PipeErr.transcription m) =>
      ({ v1 with transcript_status := "failed", transcript_error := some m }, none)
    | Except.error (PipeErr.unexpected m) =>
      ({ v1 with transcript_status := "failed",
                 transcript_error := some ("Unexpected error: " ++ pyTake 200 m) }, none)

/-- The shared base query of both batch endpoints: videos of the channel
without a transcript and not currently `extracting`, restricted to the
selected ids when given, and to caption-bearing videos when
`use_ai` is off and no explicit selection was made.  The input list is
taken in the query's `published_at` descending order. -/
def batchSelect (useAI : Bool) (videoIds : Option (List Nat))
    (videos : List VideoState) : List VideoState :=
  videos.filter (fun v =>
    ¬v.has_transcript && v.transcript_status ≠ "extracting" &&
    (match videoIds with
     | some ids => ids.contains v.id
     | none => true) &&
    (if ¬useAI && videoIds.isNone then v.caption else true))

/-- Methods counted as AI-assisted by both batch endpoints. -/
def aiMethods : List String := ["ai", "whisper-mlx", "whisper-faster-whisper"]

/-- Result of `extract_all_channel_transcripts`: the response counters,
the final states of the processed videos, and the ids for which the
extraction pipeline was actually invoked. -/
structure BatchResult where
  extracted : Nat
  extracted_ai : Nat
  already_completed : Nat
  failed : Nat
  total_processed : Nat
  videos : List VideoState
  invoked : List Nat
  deriving Repr, DecidableEq

/-- The loop body of `extract_all_channel_transcripts` on one selected
video: skip (counting `already_completed`) when it has a transcript;
otherwise set `extracting`, run the pipeline, and write the terminal
state.  The `None` branch sets no error message; any exception is stored
truncated to 200 characters.  Returns the final row, the counter deltas
`(extracted, extracted_ai, already_completed, failed)` and whether the
pipeline ran. -/
def batchProcessOne (envOf : String → PipelineEnv) (useAI : Bool)
    (provider : Option String) (v : VideoState) :
    VideoState × (Nat × Nat × Nat × Nat) × Bool :=
  if v.has_transcript then (v, (0, 0, 1, 0), false)
  else
    let v1 := { v with transcript_status := "extracting" }
    let outcome := (if useAI then extractTranscript (envOf v.youtube_video_id) true provider
                    else extractTranscriptCaptionOnly (envOf v.youtube_video_id)).1
    match outcome with
    | Except.ok (some r) =>
      ({ v1 with has_transcript := true, transcript_status := "completed" },
       if aiMethods.contains r.method then (0, 1, 0, 0) else (1, 0, 0, 0), true)
    | Except.ok none =>
      ({ v1 with transcript_status := "failed" }, (0, 0, 0, 1), true)
    | Except.error e =>
      ({ v1 with transcript_status := "failed",
                 transcript_error := some (pyTake 200 e.msg) }, (0, 0, 0, 1), true)

/-- `extract_all_channel_transcripts`: select, fold the loop body, and
report the counters with `total_processed = len(videos)`. -/
def extractAllChannelTranscripts (envOf : String → PipelineEnv) (useAI : Bool)
    (provider : Option String) (videoIds : Option (List Nat))
    (videos : List VideoState) : BatchResult :=
  let sel := batchSelect useAI videoIds videos
  let step := fun (acc : BatchResult) (v : VideoState) =>
    let (v2, d, ran) := batchProcessOne envOf useAI provider v
    { acc with
      extracted := acc.extracted + d.1,
      extracted_ai := acc.extracted_ai + d.2.1,
      already_completed := acc.already_completed + d.2.2.1,
      failed := acc.failed + d.2.2.2,
      videos := acc.videos ++ [v2],
      invoked := acc.invoked ++ (if ran then [v.id] else []) }
  sel.foldl step
    { extracted := 0, extracted_ai := 0, already_completed := 0, failed := 0,
      total_processed := sel.length, videos := [], invoked := [] }

/-- One server-sent event of `extract_transcripts_stream`. -/
inductive StreamEvent where
  /-- The per-item heartbeat emitted before each invocation. -/
  | extracting (current total : Nat) (title : String)
      (extracted extractedAI failed : Nat)
  /-- The final counters. -/
  | complete (extracted extractedAI failed total : Nat)
  deriving Repr, DecidableEq

/-- Result of the streaming batch endpoint. -/
structure StreamResult where
  events : List StreamEvent
  videos : List VideoState
  invoked : List Nat
  deriving Repr, DecidableEq

/-- The loop of `extract_transcripts_stream.generate_progress` over the
selected videos: emit the heartbeat (index, total, truncated title,
counter snapshot), skip items that acquired a transcript, otherwise set
`extracting`, run the pipeline (no provider parameter here) and write the
terminal state — the `None` branch stores `"No transcript available"`,
exceptions are truncated to 200 characters. -/
def streamLoop (envOf : String → PipelineEnv) (useAI : Bool) (total : Nat) :
    List VideoState → Nat → Nat → Nat → Nat →
    List StreamEvent × (Nat × Nat × Nat) × List VideoState × List Nat
  | [], _, ex, exai, f => ([], (ex, exai, f), [], [])
  | v :: rest, i, ex, exai, f =>
    let ev := StreamEvent.extracting (i + 1) total (pyTake 50 v.title) ex exai f
    if v.has_transcript then
      let (evs, cs, vids, inv) := streamLoop envOf useAI total rest (i + 1) ex exai f
      (ev :: evs, cs, v :: vids, inv)
    else
      let v1 := { v with transcript_status := "extracting" }
      let outcome := (if useAI then extractTranscript (envOf v.youtube_video_id) true none
                      else extractTranscriptCaptionOnly (envOf v.youtube_video_id)).1
      let (v2, ex2, exai2, f2) :=
        match outcome with
        | Except.ok (some r) =>
          ({ v1 with has_transcript := true, transcript_status := "completed" },
           if aiMethods.contains r.method then (ex, exai + 1, f) else (ex + 1, exai, f))
        | Except.ok none =>
          ({ v1 with transcript_status := "failed",
                     transcript_error := some "No transcript available" },
           (ex, exai, f + 1))
        | Except.error e =>
          ({ v1 with transcript_status := "failed",
                     transcript_error := some (pyTake 200 e.msg) }, (ex, exai, f + 1))
      let (evs, cs, vids, inv) := streamLoop envOf useAI total rest (i + 1) ex2 exai2 f2
      (ev :: evs, cs, v2 :: vids, v.id :: inv)

/-- `extract_transcripts_stream`: select, run the loop, and close with
the `complete` event carrying the final counters and the total. -/
def extractTranscriptsStream (envOf : String → PipelineEnv) (useAI : Bool)
    (videoIds : Option (List Nat)) (videos : List VideoState) : StreamResult :=
  let sel := batchSelect useAI videoIds videos
  let total := sel.length
  let (evs, cs, vids, inv) := streamLoop envOf useAI total sel 0 0 0 0
  { events := evs ++ [StreamEvent.complete cs.1 cs.2.1 cs.2.2 total],
    videos := vids, invoked := inv }

/-! ## Prepared-audio hand-off tokens (`routers/videos.py`) -/

/-- `DOWNLOAD_TOKEN_TTL = 600`. -/
def DOWNLOAD_TOKEN_TTL : Nat := 600

/-- The key prefix of `download_token_cache`. -/
def downloadTokenPrefix : String := "download_token:"

/-- The dict stored by `prepare_all_audio` for a token, as the ordered
list of its JSON fields. -/
def zipInfoValue (path filename tempDir userId : String) : List (String × String) :=
  [("path", path), ("filename", filename), ("temp_dir", tempDir), ("user_id", userId)]

/-- The `download_token_cache.set` call at the end of
`prepare_all_audio.generate_progress`. -/
def prepareSetToken (now : Nat) (token path filename tempDir userId : String)
    (c : CacheState (List (String × String))) : CacheState (List (String × String)) :=
  cacheSet now downloadTokenPrefix token (zipInfoValue path filename tempDir userId)
    DOWNLOAD_TOKEN_TTL c

/-- The HTTP-visible outcome of `download_prepared_audio`. -/
inductive DownloadResponse where
  /-- 404: token absent or expired. -/
  | notFound
  /-- 403: stored owner identity does not match the caller. -/
  | forbidden
  /-- The `FileResponse` with the stored path and filename. -/
  | file (path filename : String)
  deriving Repr, DecidableEq

/-- `download_prepared_audio`: look the token up (404 on a miss), check
`user_id` against the caller (403, leaving the entry in place), then
delete the token and serve the file. -/
def downloadPreparedAudio (now : Nat) (userId token : String)
    (c : CacheState (List (String × String))) :
    DownloadResponse × CacheState (List (String × String)) :=
  match cacheGet now downloadTokenPrefix token c with
  | (none, c1) => (DownloadResponse.notFound, c1)
  | (some zi, c1) =>
    if assocFind "user_id" zi ≠ some userId then (DownloadResponse.forbidden, c1)
    else
      (DownloadResponse.file ((assocFind "path" zi).getD "")
        ((assocFind "filename" zi).getD ""),
       cacheDelete downloadTokenPrefix token c1)

/-! ## Concrete instances used by the closed witness theorems -/

/-- An MLX-backend filesystem on which exactly the `turbo` model is
installed (one snapshot directory holding a `.safetensors` file). -/
def fsTurboInstalled : ModelFS := fun d =>
  if d = "models--mlx-community--whisper-turbo" then
    some [{ isDir := true, hasSafetensors := true, hasModelBin := false }]
  else none

/-- A prepared hand-off token in the in-process cache, owned by `u1`. -/
def tokenStateC9 : CacheState (List (String × String)) :=
  prepareSetToken 0 "tok" "/tmp/audio.zip" "chan_audio.zip" "/tmp/d" "u1"
    (CacheState.mem [])

/-- A pipeline environment in which every stage fails: no caption data,
no installed model, no provider credentials. -/
def envNothing : PipelineEnv where
  caption := { infoOk := false, subtitles := [], automaticCaptions := [],
               urlPresent := false, events := [], raises := true }
  whisper := { modelName := "turbo", isAppleSilicon := false, mlxAvailable := false,
               fs := fun _ => none, audioOk := false,
               inference := Except.error "inference failed" }
  siliconflow := { audioOk := false, apiKeyConfigured := false,
                   request := Except.error "down" }
  replicate := { audioOk := false, apiTokenConfigured := false,
                 response := Except.error "down" }
  configuredProvider := "replicate"

/-- A video that already has a transcript (terminal `completed`). -/
def videoCompleted : VideoState where
  id := 2
  youtube_video_id := "y2"
  title := "done already"
  caption := true
  has_transcript := true
  transcript_status := "completed"
  transcript_error := none

/-- A pending caption-bearing video. -/
def videoPending : VideoState where
  id := 1
  youtube_video_id := "y1"
  title := "pending one"
  caption := true
  has_transcript := false
  transcript_status := "pending"
  transcript_error := none

/-- A caption environment whose json3 events yield the plain text
`hello 世界 world` across three segments. -/
def captionEnvCJK : CaptionEnv where
  infoOk := true
  subtitles := [("en", ["json3"])]
  automaticCaptions := []
  urlPresent := true
  events := [{ hasSegs := true, tStartMs := 0, segs := ["hello"] },
             { hasSegs := true, tStartMs := 1000, segs := ["世界"] },
             { hasSegs := true, tStartMs := 2000, segs := ["world"] }]
  raises := false

/-- Pipeline environment in which the caption stage succeeds with mixed
CJK/Latin text. -/
def envCaptionCJK : PipelineEnv :=
  { envNothing with caption := captionEnvCJK }

/-- Pipeline environment in which captions fail and local MLX Whisper
succeeds with the text `good day`. -/
def envWhisperOk : PipelineEnv :=
  { envNothing with
    whisper := { modelName := "turbo", isAppleSilicon := true, mlxAvailable := true,
                 fs := fsTurboInstalled, audioOk := true,
                 inference := Except.ok ("good day", "en") } }

/-- The outcome local MLX Whisper produces in `envWhisperOk`. -/
def whisperOkResult : TranscriptResult where
  content := "good day"
  language := "en"
  word_count := 2
  method := "whisper-mlx"

/-- The outcome the caption stage produces in `envCaptionCJK`. -/
def captionCJKResult : TranscriptResult where
  content := "[00:00] hello\n[00:01] 世界\n[00:02] world"
  language := "en"
  word_count := 3
  method := "caption"

/-- A 300-character provider name supplied by the caller of the
single-video endpoint. -/
def longProviderName : String := ⟨List.replicate 300 'x'⟩

/-- Pipeline environment with a local model installed but a configured
model name that is not, so the local stage fails and provider dispatch
is reached. -/
def envUnknownProvider : PipelineEnv :=
  { envNothing with
    whisper := { modelName := "nope", isAppleSilicon := true, mlxAvailable := true,
                 fs := fsTurboInstalled, audioOk := false,
                 inference := Except.error "x" } }

/-! ## Theorems -/

/-- C2: with AI fallback disabled (`use_ai_fallback=False`, and likewise
`extract_transcript_caption_only`), the pipeline invokes neither the
local Whisper transcriber nor any remote provider — the stage trace is
empty — and it returns exactly the caption extractor's result, `None`
(not an error) when no captions are found. -/
theorem caption_only_never_invokes_ai_stages (env : PipelineEnv)
    (provider : Option String) :
    extractTranscript env false provider =
      (Except.ok (extractCaptionSync env.caption), ⟨false, none⟩) ∧
    extractTranscriptCaptionOnly env =
      (Except.ok (extractCaptionSync env.caption), ⟨false, none⟩) := by
  constructor
  · unfold extractTranscript
    cases h : extractCaptionSync env.caption <;> simp
  · rfl

/-- C6: caption-track selection is the deterministic function
`selectCaptionTrack`; whenever the manual scan of the fixed priority
list succeeds it wins (automatic tracks are only consulted when it
fails, with `en-orig` appended), and on manual tracks `{fr, en}` with
automatic tracks `{en, ja}` it picks the manual `en` track. -/
theorem caption_track_selection_manual_first
    (subs autos : List (String × List String)) :
    (∀ lang, scanLangs subs langPriority = some lang →
      selectCaptionTrack subs autos = some (lang, true)) ∧
    (scanLangs subs langPriority = none →
      selectCaptionTrack subs autos =
        (scanLangs autos (langPriority ++ ["en-orig"])).map (fun l => (l, false))) ∧
    selectCaptionTrack [("fr", ["json3"]), ("en", ["json3"])]
        [("en", ["json3"]), ("ja", ["json3"])] = some ("en", true) := by
  refine ⟨fun lang h => ?_, fun h => ?_, by decide⟩
  · simp [selectCaptionTrack, h]
  · simp [selectCaptionTrack, h]
    cases scanLangs autos (langPriority ++ ["en-orig"]) <;> simp

/-- Closed instance of the C6 theorem at the concrete track sets of the
claim. -/
theorem caption_track_selection_manual_first_witness :
    selectCaptionTrack [("fr", ["json3"]), ("en", ["json3"])]
        [("en", ["json3"]), ("ja", ["json3"])] = some ("en", true) :=
  (caption_track_selection_manual_first
      [("fr", ["json3"]), ("en", ["json3"])]
      [("en", ["json3"]), ("ja", ["json3"])]).1 "en" (by decide)

/-- C10: `download_model` is idempotent on installed models — when
`is_model_installed` already holds, it performs no download, leaves the
filesystem unchanged, calls the progress callback exactly once with 100
and returns without error; an unknown model name raises
`TranscriptionError("Unknown model: ...")` instead. -/
theorem download_model_idempotent_on_installed (backendMlx : Bool)
    (fs : ModelFS) (env : DownloadEnv) (modelName : String) :
    (isModelInstalled backendMlx fs modelName = true →
      downloadModel backendMlx fs env modelName = (Except.ok (), [100], fs)) ∧
    (assocFind modelName (getWhisperModels backendMlx) = none →
      downloadModel backendMlx fs env modelName =
        (Except.error ("Unknown model: " ++ modelName), [], fs)) := by
  constructor
  · intro h
    have hfind : (assocFind modelName (getWhisperModels backendMlx)).isNone = false := by
      cases hf : assocFind modelName (getWhisperModels backendMlx) with
      | none => rw [isModelInstalled, hf] at h; exact absurd h (by simp)
      | some _ => rfl
    simp [downloadModel, hfind, h]
  · intro h
    have : isModelInstalled backendMlx fs modelName = false := by
      rw [isModelInstalled, h]
    simp [downloadModel, h, this]

/-- Closed instance of the C10 theorem: on a filesystem where `turbo` is
installed, downloading `turbo` again is a no-op reporting 100%, and the
unknown name `nope` errors. -/
theorem download_model_idempotent_on_installed_witness :
    downloadModel true fsTurboInstalled
        ⟨false, fun _ => none, "boom"⟩ "turbo" =
      (Except.ok (), [100], fsTurboInstalled) ∧
    downloadModel true fsTurboInstalled
        ⟨false, fun _ => none, "boom"⟩ "nope" =
      (Except.error ("Unknown model: " ++ "nope"), [], fsTurboInstalled) :=
  ⟨(download_model_idempotent_on_installed true fsTurboInstalled
      ⟨false, fun _ => none, "boom"⟩ "turbo").1 (by decide),
   (download_model_idempotent_on_installed true fsTurboInstalled
      ⟨false, fun _ => none, "boom"⟩ "nope").2 (by decide)⟩

theorem storeFind_set_self (k : String) (v : α) (e : Nat) (st : Store α) :
    storeFind k (storeSet k v e st) = some (v, e) := by
  simp [storeFind, storeSet, List.find?]

theorem storeFind_eq_none (k : String) (l : Store α)
    (h : ∀ e ∈ l, e.1 ≠ k) : storeFind k l = none := by
  rw [storeFind, List.find?_eq_none.mpr]
  · rfl
  · intro x hx
    simp [h x hx]

theorem cacheGet_set_fresh (t0 t ttl : Nat) (pre k : String) (v : α)
    (c : CacheState α) (h : t < t0 + ttl) :
    (cacheGet t pre k (cacheSet t0 pre k v ttl c)).1 = some v := by
  cases c with
  | redis st =>
    simp [cacheGet, cacheSet, redisGet, storeFind_set_self, h]
  | mem st =>
    have h1 : t ≤ t0 + ttl := by omega
    simp [cacheGet, cacheSet, storeSet, memCleanup, List.filter_cons, h1, storeFind]

theorem cacheGet_set_expired (t0 t ttl : Nat) (pre k : String) (v : α)
    (c : CacheState α) (h : t0 + ttl < t) :
    (cacheGet t pre k (cacheSet t0 pre k v ttl c)).1 = none := by
  cases c with
  | redis st =>
    have : ¬(t < t0 + ttl) := by omega
    simp [cacheGet, cacheSet, redisGet, storeFind_set_self, this]
  | mem st =>
    simp only [cacheGet, cacheSet, storeSet]
    rw [show memCleanup t ((pre ++ k, v, t0 + ttl) ::
        (memCleanup t0 st).filter (fun e => e.1 ≠ pre ++ k)) =
        ((memCleanup t0 st).filter (fun e => e.1 ≠ pre ++ k)).filter
          (fun e => ¬e.2.2 < t) from by
      simp [memCleanup, List.filter_cons, h]]
    rw [storeFind_eq_none]
    · rfl
    · intro e he
      have := (List.mem_filter.mp ((List.mem_filter.mp he).1)).2
      simpa using this

theorem cacheGet_delete (t : Nat) (pre k : String) (c : CacheState α) :
    (cacheGet t pre k (cacheDelete pre k c)).1 = none := by
  cases c with
  | redis st =>
    simp only [cacheGet, cacheDelete, redisGet]
    rw [storeFind_eq_none]
    intro e he
    have := (List.mem_filter.mp he).2
    simpa using this
  | mem st =>
    simp only [cacheGet, cacheDelete]
    rw [storeFind_eq_none]
    · rfl
    · intro e he
      have := (List.mem_filter.mp ((List.mem_filter.mp he).1)).2
      simpa using this

/-- C8: after `Cache.set(key, value, ttl)` with positive TTL, the entry
is observable (`get` returns the value, `exists` is true) at any time
strictly before the expiry instant `t0 + ttl`, and absent (`get` is
`None`, `exists` is false) at any time strictly after it — in the
durable (Redis) backend and in the in-process fallback, whose expiry is
the lazy sweep on access. -/
theorem cache_ttl_observability (t0 t ttl : Nat) (pre k : String) (v : α)
    (c : CacheState α) (_httl : 0 < ttl) :
    (t < t0 + ttl →
      (cacheGet t pre k (cacheSet t0 pre k v ttl c)).1 = some v ∧
      cacheExists t pre k (cacheSet t0 pre k v ttl c) = true) ∧
    (t0 + ttl < t →
      (cacheGet t pre k (cacheSet t0 pre k v ttl c)).1 = none ∧
      cacheExists t pre k (cacheSet t0 pre k v ttl c) = false) := by
  constructor
  · intro h
    have hg := cacheGet_set_fresh t0 t ttl pre k v c h
    exact ⟨hg, by simp [cacheExists, hg]⟩
  · intro h
    have hg := cacheGet_set_expired t0 t ttl pre k v c h
    exact ⟨hg, by simp [cacheExists, hg]⟩

/-- Closed instance of the C8 theorem: a value set at time 5 with TTL 1
is present at time 5 and absent at time 7, in both backend modes. -/
theorem cache_ttl_observability_witness :
    ((cacheGet 5 "p:" "k" (cacheSet 5 "p:" "k" "val" 1
        (CacheState.mem []))).1 = some "val" ∧
      cacheExists 5 "p:" "k" (cacheSet 5 "p:" "k" "val" 1
        (CacheState.mem ([] : Store String))) = true) ∧
    ((cacheGet 7 "p:" "k" (cacheSet 5 "p:" "k" "val" 1
        (CacheState.redis []))).1 = none ∧
      cacheExists 7 "p:" "k" (cacheSet 5 "p:" "k" "val" 1
        (CacheState.redis ([] : Store String))) = false) :=
  ⟨(cache_ttl_observability 5 5 1 "p:" "k" "val" (CacheState.mem [])
      (by decide)).1 (by decide),
   (cache_ttl_observability 5 7 1 "p:" "k" "val" (CacheState.redis [])
      (by decide)).2 (by decide)⟩

/-- C9 as stated is false on the field names: the cache entry
`prepare_all_audio` stores for a hand-off token has exactly the fields
`{path, filename, temp_dir, user_id}` — the owner identity is stored
under the key `user_id`, and no field named `owner_id` exists. -/
theorem prepared_token_fields_counterexample :
    (cacheGet 0 downloadTokenPrefix "tok"
      (prepareSetToken 0 "tok" "/tmp/audio.zip" "chan_audio.zip" "/tmp/d" "u1"
        (CacheState.mem []))).1 =
      some [("path", "/tmp/audio.zip"), ("filename", "chan_audio.zip"),
            ("temp_dir", "/tmp/d"), ("user_id", "u1")] ∧
    (zipInfoValue "/tmp/audio.zip" "chan_audio.zip" "/tmp/d" "u1").map Prod.fst =
      ["path", "filename", "temp_dir", "user_id"] ∧
    ¬("owner_id" ∈
      (zipInfoValue "/tmp/audio.zip" "chan_audio.zip" "/tmp/d" "u1").map Prod.fst) :=
  ⟨by decide, by decide, by decide⟩

/-- C9 (amended: the owner-identity field is named `user_id`): the
hand-off entry has exactly the fields `{path, filename, temp_dir,
user_id}`; an absent token (in particular one expired past
`DOWNLOAD_TOKEN_TTL`) yields 404; a caller whose identity differs from
the stored `user_id` gets 403 and the token is not deleted; a matching
caller gets the stored file and the token is deleted first, so any
second read yields 404. -/
theorem prepared_token_flow (now now2 : Nat) (userId token : String)
    (c : CacheState (List (String × String))) :
    (∀ p f d u, (zipInfoValue p f d u).map Prod.fst =
        ["path", "filename", "temp_dir", "user_id"]) ∧
    ((cacheGet now downloadTokenPrefix token c).1 = none →
      downloadPreparedAudio now userId token c =
        (DownloadResponse.notFound, (cacheGet now downloadTokenPrefix token c).2)) ∧
    (∀ zi, (cacheGet now downloadTokenPrefix token c).1 = some zi →
      assocFind "user_id" zi ≠ some userId →
      downloadPreparedAudio now userId token c =
        (DownloadResponse.forbidden, (cacheGet now downloadTokenPrefix token c).2)) ∧
    (∀ zi, (cacheGet now downloadTokenPrefix token c).1 = some zi →
      assocFind "user_id" zi = some userId →
      (downloadPreparedAudio now userId token c).1 =
        DownloadResponse.file ((assocFind "path" zi).getD "")
          ((assocFind "filename" zi).getD "") ∧
      (downloadPreparedAudio now2 userId token
        (downloadPreparedAudio now userId token c).2).1 =
        DownloadResponse.notFound) ∧
    (∀ t0 t p f d u, t0 + DOWNLOAD_TOKEN_TTL < t →
      (downloadPreparedAudio t userId token
        (prepareSetToken t0 token p f d u c)).1 = DownloadResponse.notFound) := by
  refine ⟨fun p f d u => rfl, ?_, ?_, ?_, ?_⟩
  · intro h
    rcases hC : cacheGet now downloadTokenPrefix token c with ⟨val, c1⟩
    rw [hC] at h
    simp at h
    simp [downloadPreparedAudio, hC, h]
  · intro zi h hu
    rcases hC : cacheGet now downloadTokenPrefix token c with ⟨val, c1⟩
    rw [hC] at h
    simp at h
    subst h
    simp [downloadPreparedAudio, hC, hu]
  · intro zi h hu
    rcases hC : cacheGet now downloadTokenPrefix token c with ⟨val, c1⟩
    rw [hC] at h
    simp at h
    subst h
    constructor
    · simp [downloadPreparedAudio, hC, hu]
    · have hdel : (downloadPreparedAudio now userId token c).2 =
          cacheDelete downloadTokenPrefix token c1 := by
        simp [downloadPreparedAudio, hC, hu]
      rw [hdel]
      rcases hC2 : cacheGet now2 downloadTokenPrefix token
          (cacheDelete downloadTokenPrefix token c1) with ⟨val2, c2⟩
      have hnone := cacheGet_delete (α := List (String × String)) now2
        downloadTokenPrefix token c1
      rw [hC2] at hnone
      simp at hnone
      simp [downloadPreparedAudio, hC2, hnone]
  · intro t0 t p f d u hexp
    have hnone := cacheGet_set_expired t0 t DOWNLOAD_TOKEN_TTL downloadTokenPrefix
      token (zipInfoValue p f d u) c hexp
    rcases hC : cacheGet t downloadTokenPrefix token
        (prepareSetToken t0 token p f d u c) with ⟨val, c1⟩
    rw [show prepareSetToken t0 token p f d u c =
        cacheSet t0 downloadTokenPrefix token (zipInfoValue p f d u)
          DOWNLOAD_TOKEN_TTL c from rfl] at hC
    rw [hC] at hnone
    simp at hnone
    simp [downloadPreparedAudio, prepareSetToken, hC, hnone]

/-- Closed instance of the C9 theorem: the owner reads the file once and
a second read 404s; a different caller is rejected with 403. -/
theorem prepared_token_flow_witness :
    ((downloadPreparedAudio 10 "u1" "tok" tokenStateC9).1 =
      DownloadResponse.file "/tmp/audio.zip" "chan_audio.zip" ∧
     (downloadPreparedAudio 11 "u1" "tok"
       (downloadPreparedAudio 10 "u1" "tok" tokenStateC9).2).1 =
      DownloadResponse.notFound) ∧
    (downloadPreparedAudio 10 "u2" "tok" tokenStateC9).1 =
      DownloadResponse.forbidden :=
  ⟨(prepared_token_flow 10 11 "u1" "tok" tokenStateC9).2.2.2.1
      (zipInfoValue "/tmp/audio.zip" "chan_audio.zip" "/tmp/d" "u1")
      (by decide) (by decide),
   congrArg Prod.fst ((prepared_token_flow 10 11 "u2" "tok" tokenStateC9).2.2.1
      (zipInfoValue "/tmp/audio.zip" "chan_audio.zip" "/tmp/d" "u1")
      (by decide) (by decide))⟩

/-- C5: in both batch endpoints, a video already in the terminal
`completed` state (it has a transcript) is excluded by the selection
query, so the run is identical with or without it: the pipeline is not
re-invoked for it, its row is untouched, no counter includes it, and it
consumes no slot of the reported progress count (`current`/`total`) or
of `total_processed`. -/
theorem batch_skips_completed_items (envOf : String → PipelineEnv)
    (useAI : Bool) (provider : Option String) (videoIds : Option (List Nat))
    (pre post : List VideoState) (v : VideoState)
    (h : v.has_transcript = true) :
    v ∉ batchSelect useAI videoIds (pre ++ v :: post) ∧
    batchSelect useAI videoIds (pre ++ v :: post) =
      batchSelect useAI videoIds (pre ++ post) ∧
    extractAllChannelTranscripts envOf useAI provider videoIds (pre ++ v :: post) =
      extractAllChannelTranscripts envOf useAI provider videoIds (pre ++ post) ∧
    extractTranscriptsStream envOf useAI videoIds (pre ++ v :: post) =
      extractTranscriptsStream envOf useAI videoIds (pre ++ post) := by
  have hsel : batchSelect useAI videoIds (pre ++ v :: post) =
      batchSelect useAI videoIds (pre ++ post) := by
    simp [batchSelect, List.filter_append, List.filter_cons, h]
  refine ⟨?_, hsel, ?_, ?_⟩
  · intro hmem
    have := (List.mem_filter.mp hmem).2
    simp [h] at this
  · simp only [extractAllChannelTranscripts]
    rw [hsel]
  · simp only [extractTranscriptsStream]
    rw [hsel]

/-- Closed instance of the C5 theorem: adding an already-completed video
to a batch changes neither the non-streaming result nor the streamed
event sequence. -/
theorem batch_skips_completed_items_witness :
    extractAllChannelTranscripts (fun _ => envNothing) false none none
        [videoPending, videoCompleted] =
      extractAllChannelTranscripts (fun _ => envNothing) false none none
        [videoPending] ∧
    extractTranscriptsStream (fun _ => envNothing) false none
        [videoPending, videoCompleted] =
      extractTranscriptsStream (fun _ => envNothing) false none
        [videoPending] :=
  ⟨(batch_skips_completed_items (fun _ => envNothing) false none none
      [videoPending] [] videoCompleted rfl).2.2.1,
   (batch_skips_completed_items (fun _ => envNothing) false none none
      [videoPending] [] videoCompleted rfl).2.2.2⟩

/-- C7: when the AI chain is reached and the local stage yields nothing,
an unknown (non-`replicate`, non-`siliconflow`) provider name fails with
the configuration-level "No transcription method available" error if no
local model is installed, and with the "Unknown transcription provider"
error (never a silent default) if a model is installed. -/
theorem unknown_provider_is_configuration_error (env : PipelineEnv)
    (provider : Option String)
    (hlocal : (localWhisperTranscription env).1 = none)
    (hp1 : resolvedProvider env provider ≠ "replicate")
    (hp2 : resolvedProvider env provider ≠ "siliconflow") :
    (hasAnyModelInstalled env.whisper.backendMlx env.whisper.fs = false →
      (getAITranscription env provider).1 = Except.error
        ("No transcription method available. Download a Whisper model in settings, or configure a cloud API (Replicate/SiliconFlow).")) ∧
    (hasAnyModelInstalled env.whisper.backendMlx env.whisper.fs = true →
      (getAITranscription env provider).1 = Except.error
        ("Unknown transcription provider: " ++ resolvedProvider env provider)) := by
  rcases hL : localWhisperTranscription env with ⟨val, li⟩
  rw [hL] at hlocal
  simp only at hlocal
  subst hlocal
  constructor
  · intro h
    simp [getAITranscription, hL, hp1, hp2, h]
  · intro h
    simp [getAITranscription, hL, hp1, hp2, h]

/-- Closed instance of the C7 theorem: with nothing installed and no
captions, the provider name `foo` produces the configuration-level
error. -/
theorem unknown_provider_is_configuration_error_witness :
    (getAITranscription envNothing (some "foo")).1 = Except.error
      "No transcription method available. Download a Whisper model in settings, or configure a cloud API (Replicate/SiliconFlow)." :=
  (unknown_provider_is_configuration_error envNothing (some "foo")
    (by decide) (by decide) (by decide)).1 (by decide)

theorem extractCaptionSync_method (env : CaptionEnv) (r : TranscriptResult)
    (h : extractCaptionSync env = some r) : r.method = "caption" := by
  unfold extractCaptionSync at h
  split at h
  · cases h
  split at h
  · cases h
  · revert h
    cases selectCaptionTrack env.subtitles env.automaticCaptions with
    | none => intro h; cases h
    | some p =>
      intro h
      simp only at h
      split at h
      · cases h
      · split at h
        · cases h
        · simp only [Option.some.injEq] at h
          subst h
          rfl

theorem whisperTranscribeAudio_ok (w : WhisperEnv) (r : TranscriptResult)
    (h : whisperTranscribeAudio w = Except.ok r) :
    r.word_count = countWords r.content ∧
    (r.method = "whisper-mlx" ∨ r.method = "whisper-faster-whisper") := by
  unfold whisperTranscribeAudio at h
  split at h
  · cases h
  split at h
  · cases h
  · revert h
    cases w.inference with
    | error e => intro h; cases h
    | ok p =>
      intro h
      simp only at h
      split at h
      · cases h
      · simp only [Except.ok.injEq] at h
        subst h
        refine ⟨rfl, ?_⟩
        unfold getBackend
        by_cases hb : (w.isAppleSilicon && w.mlxAvailable) = true
        · left; rw [hb]; rfl
        · right; rw [Bool.not_eq_true] at hb; rw [hb]; rfl

theorem replicateTranscribeAudio_ok (env : ReplicateEnv) (r : TranscriptResult)
    (h : replicateTranscribeAudio env = Except.ok r) :
    r.word_count = countWords r.content ∧ r.method = "ai" := by
  unfold replicateTranscribeAudio at h
  split at h
  · cases h
  · revert h
    cases transcribeWithReplicateSync env with
    | error e => intro h; cases h
    | ok p =>
      intro h
      simp only at h
      split at h
      · cases h
      · simp only [Except.ok.injEq] at h
        subst h
        exact ⟨rfl, rfl⟩

theorem siliconflowTranscribeAudio_ok (env : SiliconFlowEnv) (r : TranscriptResult)
    (h : siliconflowTranscribeAudio env = Except.ok (some r)) :
    r.word_count = countWords r.content ∧ r.method = "ai" := by
  unfold siliconflowTranscribeAudio at h
  split at h
  · cases h
  · revert h
    cases transcribeWithSiliconflow env with
    | error e => intro h; cases h
    | ok p =>
      intro h
      cases p with
      | none => cases h
      | some q =>
        simp only at h
        split at h
        · cases h
        · simp only [Except.ok.injEq, Option.some.injEq] at h
          subst h
          exact ⟨rfl, rfl⟩

theorem localWhisperTranscription_some (env : PipelineEnv) (r : TranscriptResult)
    (li : Bool) (h : localWhisperTranscription env = (some r, li)) :
    whisperTranscribeAudio env.whisper = Except.ok r := by
  unfold localWhisperTranscription at h
  split at h
  · simp at h
  · revert h
    cases hw : whisperTranscribeAudio env.whisper with
    | ok r2 =>
      intro h
      simp only [Prod.mk.injEq, Option.some.injEq] at h
      rw [h.1]
    | error e => intro h; simp at h

theorem getAITranscription_ok (env : PipelineEnv) (provider : Option String)
    (a : TranscriptResult)
    (h : (getAITranscription env provider).1 = Except.ok (some a)) :
    a.word_count = countWords a.content ∧
    (a.method = "ai" ∨ a.method = "whisper-mlx" ∨
      a.method = "whisper-faster-whisper") := by
  unfold getAITranscription at h
  rcases hL : localWhisperTranscription env with ⟨val, li⟩
  rw [hL] at h
  cases val with
  | some r =>
    simp only [Except.ok.injEq, Option.some.injEq] at h
    have hw := whisperTranscribeAudio_ok env.whisper r
      (localWhisperTranscription_some env r li hL)
    rw [← h]
    exact ⟨hw.1, Or.inr hw.2⟩
  | none =>
    simp only at h
    split at h
    · revert h
      cases hr : replicateTranscribeAudio env.replicate with
      | ok r =>
        intro h
        simp only [Except.ok.injEq, Option.some.injEq] at h
        have := replicateTranscribeAudio_ok env.replicate r hr
        rw [← h]
        exact ⟨this.1, Or.inl this.2⟩
      | error e => intro h; simp at h
    · split at h
      · have := siliconflowTranscribeAudio_ok env.siliconflow a h
        exact ⟨this.1, Or.inl this.2⟩
      · split at h
        · simp at h
        · simp at h

theorem extractTranscript_ok_props (env : PipelineEnv) (useAI : Bool)
    (provider : Option String) (r : TranscriptResult)
    (h : (extractTranscript env useAI provider).1 = Except.ok (some r)) :
    r.method = "caption" ∨
    (r.word_count = countWords r.content ∧
      (r.method = "ai" ∨ r.method = "whisper-mlx" ∨
        r.method = "whisper-faster-whisper")) := by
  unfold extractTranscript at h
  revert h
  cases hc : extractCaptionSync env.caption with
  | some rc =>
    intro h
    simp only [Except.ok.injEq, Option.some.injEq] at h
    rw [← h]
    exact Or.inl (extractCaptionSync_method env.caption rc hc)
  | none =>
    intro h
    simp only at h
    split at h
    · rcases hA : getAITranscription env provider with ⟨res, tr⟩
      rw [hA] at h
      cases res with
      | error m => simp at h
      | ok o =>
        cases o with
        | none => simp at h
        | some a =>
          simp only [Except.ok.injEq, Option.some.injEq] at h
          have hp := getAITranscription_ok env provider a (by rw [hA])
          rw [← h]
          exact Or.inr ⟨hp.1, hp.2⟩
    · simp at h

/-- C3 (amended: the script-aware count applies to the outcomes of the
AI stages): every outcome the pipeline returns whose method is not
`caption` — i.e. produced by local Whisper or a remote provider — has
`word_count = countWords(content)`, the CJK-character count plus the
whitespace-token count of the text with CJK removed.  The caption stage
instead stores the plain whitespace-token count of the joined caption
text. -/
theorem ai_word_count_script_aware (env : PipelineEnv) (useAI : Bool)
    (provider : Option String) (r : TranscriptResult)
    (h : (extractTranscript env useAI provider).1 = Except.ok (some r))
    (hm : r.method ≠ "caption") :
    r.word_count = countWords r.content :=
  ((extractTranscript_ok_props env useAI provider r h).resolve_left hm).1

/-- C3 as stated is false for the caption stage: on caption text
`hello 世界 world` the pipeline stores `word_count = 3` (plain
whitespace split), while the script-aware count of the outcome's plain
text — whether read as the joined caption text or as the content minus
timestamps — is 4. -/
theorem caption_word_count_counterexample :
    (extractTranscript envCaptionCJK true none).1 =
      Except.ok (some captionCJKResult) ∧
    captionCJKResult.word_count = 3 ∧
    countWords "hello 世界 world" = 4 ∧
    countWords "hello\n世界\nworld" = 4 ∧
    (3 : Nat) ≠ 4 :=
  ⟨rfl, rfl, by decide, by decide, by decide⟩

/-- Closed instance of the C3 theorem: the local-Whisper outcome for
`good day` satisfies the script-aware count. -/
theorem ai_word_count_script_aware_witness :
    whisperOkResult.word_count = countWords whisperOkResult.content :=
  ai_word_count_script_aware envWhisperOk true none whisperOkResult rfl
    (by decide)

/-- C4 (amended: the local-Whisper tag is `whisper-<backend>`): the
method of every outcome the pipeline returns is one of `caption`, `ai`,
`whisper-mlx`, `whisper-faster-whisper`. -/
theorem method_tag_vocabulary (env : PipelineEnv) (useAI : Bool)
    (provider : Option String) (r : TranscriptResult)
    (h : (extractTranscript env useAI provider).1 = Except.ok (some r)) :
    r.method = "caption" ∨ r.method = "ai" ∨ r.method = "whisper-mlx" ∨
      r.method = "whisper-faster-whisper" :=
  (extractTranscript_ok_props env useAI provider r h).elim Or.inl
    (fun x => Or.inr x.2)

/-- C4 as stated is false on the local-Whisper tag format: a successful
local transcription returns `method = "whisper-mlx"`, which is neither
`caption` nor `ai` nor of the form `whisper-local:<backend>`. -/
theorem method_tag_counterexample :
    (extractTranscript envWhisperOk true none).1 =
      Except.ok (some whisperOkResult) ∧
    whisperOkResult.method = "whisper-mlx" ∧
    ¬(∃ b : String, "whisper-mlx" = "whisper-local:" ++ b) ∧
    "whisper-mlx" ≠ "caption" ∧ "whisper-mlx" ≠ "ai" := by
  refine ⟨rfl, rfl, ?_, by decide, by decide⟩
  rintro ⟨b, hb⟩
  have hlen : ("whisper-mlx" : String).data.length =
      ("whisper-local:" ++ b).data.length := by rw [hb]
  rw [String.data_append, List.length_append] at hlen
  have h1 : ("whisper-mlx" : String).data.length = 11 := rfl
  have h2 : ("whisper-local:" : String).data.length = 14 := rfl
  omega

/-- Closed instance of the C4 theorem at the local-Whisper outcome. -/
theorem method_tag_vocabulary_witness :
    whisperOkResult.method = "caption" ∨ whisperOkResult.method = "ai" ∨
    whisperOkResult.method = "whisper-mlx" ∨
    whisperOkResult.method = "whisper-faster-whisper" :=
  method_tag_vocabulary envWhisperOk true none whisperOkResult rfl

theorem streamLoop_videos (envOf : String → PipelineEnv) (useAI : Bool)
    (total : Nat) :
    ∀ (l : List VideoState) (i ex exai f : Nat),
    (streamLoop envOf useAI total l i ex exai f).2.2.1 =
      l.map (fun v =>
        if v.has_transcript then v
        else
          match (if useAI then
              extractTranscript (envOf v.youtube_video_id) true none
            else extractTranscriptCaptionOnly (envOf v.youtube_video_id)).1 with
          | Except.ok (some _) =>
            { v with has_transcript := true, transcript_status := "completed" }
          | Except.ok none =>
            { v with transcript_status := "failed",
                     transcript_error := some "No transcript available" }
          | Except.error e =>
            { v with transcript_status := "failed",
                     transcript_error := some (pyTake 200 e.msg) }) := by
  intro l
  induction l with
  | nil => intro i ex exai f; rfl
  | cons v rest ih =>
    intro i ex exai f
    by_cases hv : v.has_transcript
    · simp only [streamLoop, hv, if_true, List.map_cons, ih]
    · simp only [Bool.not_eq_true] at hv
      simp only [streamLoop, hv, Bool.false_eq_true, if_false, List.map_cons]
      cases ho : (if useAI then
          extractTranscript (envOf v.youtube_video_id) true none
        else extractTranscriptCaptionOnly (envOf v.youtube_video_id)).1 with
      | ok o => cases o <;> simp [ho, ih]
      | error e => simp [ho, ih]

theorem batchSelect_no_transcript (useAI : Bool) (videoIds : Option (List Nat))
    (videos : List VideoState) (v : VideoState)
    (h : v ∈ batchSelect useAI videoIds videos) : v.has_transcript = false := by
  have := (List.mem_filter.mp h).2
  simp only [Bool.and_eq_true, decide_eq_true_eq] at this
  simpa using this.1.1.1

/-- C1 (amended: only the catch-all path is truncated): once the
single-video endpoint sets `extracting`, the attempt always ends in
`completed` or `failed` — likewise every video processed by the
streaming batch loop — and on the catch-all path the stored error is
`"Unexpected error: "` plus at most 200 characters (at most 218 in
total).  The `TranscriptionError` path, however, stores the pipeline's
message verbatim, which is unbounded when the message echoes
caller-supplied input (see the counterexample). -/
theorem extraction_attempt_reaches_terminal_status (env : PipelineEnv)
    (useAI : Bool) (provider : Option String) (v : VideoState)
    (h : v.has_transcript = false) :
    ((extractVideoTranscript env useAI provider v).1.transcript_status =
        "completed" ∨
     (extractVideoTranscript env useAI provider v).1.transcript_status =
        "failed") ∧
    (∀ m, (if useAI then extractTranscript env true provider
            else extractTranscriptCaptionOnly env).1 =
        Except.error (PipeErr.unexpected m) →
      (extractVideoTranscript env useAI provider v).1.transcript_error =
        some ("Unexpected error: " ++ pyTake 200 m) ∧
      ("Unexpected error: " ++ pyTake 200 m).length ≤ 218) ∧
    (∀ (envOf : String → PipelineEnv) (videoIds : Option (List Nat))
        (videos : List VideoState) (w : VideoState),
      w ∈ (extractTranscriptsStream envOf useAI videoIds videos).videos →
      w.transcript_status = "completed" ∨ w.transcript_status = "failed") := by
  refine ⟨?_, ?_, ?_⟩
  · simp only [extractVideoTranscript, h, Bool.false_eq_true, if_false]
    split <;> simp
  · intro m hm
    constructor
    · simp only [extractVideoTranscript, h, Bool.false_eq_true, if_false, hm]
    · have h1 : ("Unexpected error: " : String).length = 18 := rfl
      have h2 : (pyTake 200 m).length ≤ 200 := by
        simp only [pyTake, String.length_mk]
        exact le_trans (Nat.le_of_eq (List.length_take 200 m.data))
          (Nat.min_le_left 200 m.data.length)
      rw [String.length_append]
      omega
  · intro envOf videoIds videos w hw
    simp only [extractTranscriptsStream] at hw
    rw [streamLoop_videos] at hw
    rcases List.mem_map.mp hw with ⟨u, hu, hval⟩
    have hu0 := batchSelect_no_transcript useAI videoIds videos u hu
    rw [hu0] at hval
    simp only [Bool.false_eq_true, if_false] at hval
    revert hval
    split <;> (intro hval; rw [← hval]; simp)

set_option maxRecDepth 8192 in
/-- C1 as stated is false on the `TranscriptionError` path: a caller
supplying a 300-character unknown provider name gets a `failed` status
whose stored error message embeds the full provider name — 300
characters past the fixed prefix, exceeding any 200-character bound. -/
theorem transcription_error_stored_untruncated :
    (extractVideoTranscript envUnknownProvider true (some longProviderName)
        videoPending).1.transcript_status = "failed" ∧
    (extractVideoTranscript envUnknownProvider true (some longProviderName)
        videoPending).1.transcript_error =
      some ("Unknown transcription provider: " ++ longProviderName) ∧
    ("Unknown transcription provider: " ++ longProviderName).length =
      "Unknown transcription provider: ".length + 300 ∧
    ¬(("Unknown transcription provider: " ++ longProviderName).length ≤
        "Unknown transcription provider: ".length + 200) := by
  refine ⟨rfl, rfl, ?_, ?_⟩
  · rw [String.length_append]
    rfl
  · rw [String.length_append]
    decide

/-- Closed instance of the C1 theorem: an unexpected `AttributeError`
(the SiliconFlow stage returning `None`) ends in `failed` with the
truncated catch-all message. -/
theorem extraction_attempt_reaches_terminal_status_witness :
    ((extractVideoTranscript envNothing true (some "siliconflow")
        videoPending).1.transcript_status = "completed" ∨
     (extractVideoTranscript envNothing true (some "siliconflow")
        videoPending).1.transcript_status = "failed") ∧
    (extractVideoTranscript envNothing true (some "siliconflow")
        videoPending).1.transcript_error =
      some ("Unexpected error: " ++
        pyTake 200 "'NoneType' object has no attribute 'content'") :=
  ⟨(extraction_attempt_reaches_terminal_status envNothing true
      (some "siliconflow") videoPending rfl).1,
   ((extraction_attempt_reaches_terminal_status envNothing true
      (some "siliconflow") videoPending rfl).2.1
      "'NoneType' object has no attribute 'content'" rfl).1⟩

end Scribr
